import Mathlib

/-!
Verification of the storage manager in `data_storage_setup.py`
(fraud-detection data-onboarding utility).

The development has two layers, both translated from the source:

* a query layer: the `raw_transactions` table is a list of rows with
  `Time`, `Amount`, `Class` fields, and the canned query helpers
  (`get_fraud_transactions`, `get_legitimate_transactions`,
  `get_high_value_transactions`, `get_transaction_count`) are functions
  on that list, with SQLite semantics for `WHERE`, `ORDER BY`,
  `LIMIT` (a negative limit means no limit) and `SUM` (NULL over zero
  rows), and Python semantics for the falsy `if limit:` test and the
  `int(...)` conversion of a NULL cell;

* an ingestion layer: `load_raw_data` as a transition on a store state
  (raw files, database tables, metadata registry), following the
  source's order of checks and writes.  The content hash
  (`_calculate_data_hash`, a sha256 over pandas' per-row digests) is
  kept abstract as a function parameter, since no claim below depends
  on its value.
-/

/-- One row of the `raw_transactions` table: the three columns
the code queries (`Time`, `Amount`, `Class`).  Numeric cells are
modelled as rationals, the label as an integer. -/
structure Tx where
  time : Rat
  amount : Rat
  cls : Int
deriving DecidableEq, Repr

/-- SQLite `LIMIT l`: a negative limit means no limit. -/
def sqliteLimit (l : Int) (xs : List Tx) : List Tx :=
  if l < 0 then xs else xs.take l.toNat

/-- Python `if limit: query += " LIMIT {limit}"`: `None` and `0` are
falsy, so no LIMIT clause is appended for them. -/
def applyLimit (limit : Option Int) (xs : List Tx) : List Tx :=
  match limit with
  | none => xs
  | some l => if l = 0 then xs else sqliteLimit l xs

/-- Ordering used by `ORDER BY Amount DESC`. -/
def geAmount (a b : Tx) : Prop := b.amount ≤ a.amount

instance : DecidableRel geAmount := fun a b => inferInstanceAs (Decidable (b.amount ≤ a.amount))

instance : IsTotal Tx geAmount := ⟨fun a b => le_total b.amount a.amount⟩

instance : IsTrans Tx geAmount := ⟨fun _ _ _ h1 h2 => le_trans h2 h1⟩

/-- Result rows of `SELECT * FROM raw_transactions WHERE Class = 1`,
with the optional LIMIT appended (`get_fraud_transactions`). -/
def get_fraud_transactions (rows : List Tx) (limit : Option Int) : List Tx :=
  applyLimit limit (rows.filter (fun r => r.cls == 1))

/-- Result rows of `SELECT * FROM raw_transactions WHERE Class = 0`,
with the optional LIMIT appended (`get_legitimate_transactions`). -/
def get_legitimate_transactions (rows : List Tx) (limit : Option Int) : List Tx :=
  applyLimit limit (rows.filter (fun r => r.cls == 0))

/-- Result rows of `SELECT * FROM raw_transactions WHERE Amount >=
threshold ORDER BY Amount DESC`, with the optional LIMIT appended
(`get_high_value_transactions`). -/
def get_high_value_transactions (rows : List Tx) (amount_threshold : Rat)
    (limit : Option Int) : List Tx :=
  applyLimit limit (List.insertionSort geAmount
    (rows.filter (fun r => amount_threshold ≤ r.amount)))

/-- SQL aggregate `SUM(CASE WHEN p THEN 1 ELSE 0 END)`: over zero input
rows SQL SUM yields NULL (`none`); otherwise the count of rows
satisfying `p`. -/
def sqlSumCase (p : Tx → Bool) (rows : List Tx) : Option Int :=
  if rows.isEmpty then none else some (rows.countP p)

/-- Python-level error raised inside `get_transaction_count`. -/
inductive PyError where
  | nullToInt
deriving DecidableEq, Repr

deriving instance DecidableEq for Except

/-- Python `int(cell)` applied to a value read back from SQL: raises
when the cell is NULL (pandas hands back `None`/`NaN`). -/
def intOfCell : Option Int → Except PyError Int
  | some n => Except.ok n
  | none => Except.error PyError.nullToInt

/-- Python `round(x, 3)`: keep three decimal places. -/
def round3 (q : Rat) : Rat := (round (q * 1000) : Int) / 1000

/-- Return value of `get_transaction_count` in the non-raising case. -/
structure TxCounts where
  total : Int
  fraud : Int
  legitimate : Int
  fraud_rate : Rat
deriving DecidableEq, Repr

/-- Translation of `get_transaction_count`: `COUNT(*)` as total, the
two `SUM(CASE ...)` aggregates converted with `int(...)` in order
(`fraud` first), then `fraud_rate = (fraud / total * 100) if total > 0
else 0`, rounded to three decimals. -/
def get_transaction_count (rows : List Tx) : Except PyError TxCounts :=
  let total : Int := rows.length
  match intOfCell (sqlSumCase (fun r => r.cls == 1) rows) with
  | Except.error e => Except.error e
  | Except.ok fraud =>
    match intOfCell (sqlSumCase (fun r => r.cls == 0) rows) with
    | Except.error e => Except.error e
    | Except.ok legitimate =>
      let fraud_rate : Rat := if total > 0 then (fraud : Rat) / (total : Rat) * 100 else 0
      Except.ok ⟨total, fraud, legitimate, round3 fraud_rate⟩

example : get_transaction_count ([] : List Tx) = Except.error PyError.nullToInt := by decide

example : get_transaction_count [⟨0, 25, 0⟩] = Except.ok ⟨1, 0, 1, 0⟩ := by
  norm_num [get_transaction_count, sqlSumCase, intOfCell, round3, List.countP_cons, List.countP_nil]

example : get_transaction_count [⟨0, 25, 0⟩, ⟨1, 30, 1⟩] = Except.ok ⟨2, 1, 1, 50⟩ := by
  norm_num [get_transaction_count, sqlSumCase, intOfCell, round3, List.countP_cons, List.countP_nil]

example : get_high_value_transactions [⟨0, 500, 0⟩, ⟨1, 1500, 0⟩, ⟨2, 2500, 1⟩] 1000 none
    = [⟨2, 2500, 1⟩, ⟨1, 1500, 0⟩] := by decide

example : get_fraud_transactions [⟨0, 5, 1⟩] (some 0) = [⟨0, 5, 1⟩] := by decide

/-!
Ingestion layer: `load_raw_data` and its helpers as a transition on a
store state.
-/

/-- An in-memory table, as pandas presents a parsed CSV: a header and
one list of cells per row.  Cells are modelled as rationals (the
dataset is numeric); claims about ingestion depend only on the header
and on row identity, never on cell arithmetic. -/
structure DataFrame where
  columns : List String
  rows : List (List Rat)
deriving DecidableEq, Repr

/-- One entry of `metadata/data_registry.json`, as assembled by
`load_raw_data` and `_record_metadata`. -/
structure MetaEntry where
  timestamp : String
  dataset_name : String
  data_hash : String
  row_count : Nat
  column_count : Nat
  file_path : String
deriving DecidableEq, Repr

/-- State owned by the storage manager: the immutable raw copies under
`data/raw` (keyed by dataset name), the SQLite tables (keyed by table
name), and the metadata registry's `datasets` list. -/
structure StoreState where
  rawFiles : List (String × DataFrame)
  tables : List (String × DataFrame)
  registry : List MetaEntry
deriving DecidableEq, Repr

/-- Store `v` under key `k`, replacing any existing binding (file
overwrite; `to_sql` with `if_exists` set to replace). -/
def upsert (k : String) (v : DataFrame) :
    List (String × DataFrame) → List (String × DataFrame)
  | [] => [(k, v)]
  | (k2, v2) :: rest => if k2 = k then (k, v) :: rest else (k2, v2) :: upsert k v rest

/-- Look a key up in an association list (first binding wins). -/
def lookupKey (k : String) : List (String × DataFrame) → Option DataFrame
  | [] => none
  | (k2, v) :: rest => if k2 = k then some v else lookupKey k rest

/-- Errors `load_raw_data` raises: `FileNotFoundError` (NotFound kind)
and the two `ValueError`s (Validation kind). -/
inductive LoadError where
  | fileNotFound (path : String)
  | emptyCsv
  | missingColumns (missing : List String)
deriving DecidableEq, Repr

/-- Required columns checked by `load_raw_data`
(`expected_cols = ['Time', 'Amount', 'Class']`). -/
def expected_cols : List String := ["Time", "Amount", "Class"]

/-- Python `[col for col in expected_cols if col not in df.columns]`:
exact, case-sensitive string membership. -/
def missingCols (df : DataFrame) : List String :=
  expected_cols.filter (fun c => decide (c ∉ df.columns))

/-- Destination of the immutable raw copy,
`data/raw/{dataset_name}.csv`. -/
def rawOutputPath (dataset_name : String) : String :=
  "data/raw/" ++ dataset_name ++ ".csv"

/-- Translation of `_record_metadata`: append the entry to the
registry; every exception is swallowed, so a failing append (modelled
by the `fails` flag, e.g. an unwritable registry file) leaves the
registry unchanged and never raises. -/
def record_metadata (st : StoreState) (e : MetaEntry) (fails : Bool) : StoreState :=
  if fails then st else { st with registry := st.registry ++ [e] }

/-- Translation of `load_raw_data`.  `fs` is the readable filesystem
(CSV content by path), `hashFn` abstracts `_calculate_data_hash`
(including its sentinel fallback), `now` the timestamp, `metaFails`
whether the registry append raises inside `_record_metadata`.  Steps in
source order: existence check, parse, emptiness check, required-column
check, hash, write raw copy, replace the `raw_transactions` table,
append metadata.  Returns the dataframe or the raised error, paired
with the resulting store state. -/
def load_raw_data (fs : List (String × DataFrame)) (hashFn : DataFrame → String)
    (now : String) (metaFails : Bool) (csv_path dataset_name : String)
    (st : StoreState) : Except LoadError DataFrame × StoreState :=
  match lookupKey csv_path fs with
  | none => (Except.error (LoadError.fileNotFound csv_path), st)
  | some df =>
    if df.rows.isEmpty then (Except.error LoadError.emptyCsv, st)
    else if (missingCols df).isEmpty then
      let data_hash := hashFn df
      let st1 := { st with rawFiles := upsert dataset_name df st.rawFiles }
      let st2 := { st1 with tables := upsert "raw_transactions" df st1.tables }
      let entry : MetaEntry :=
        ⟨now, dataset_name, data_hash, df.rows.length, df.columns.length,
          rawOutputPath dataset_name⟩
      (Except.ok df, record_metadata st2 entry metaFails)
    else (Except.error (LoadError.missingColumns (missingCols df)), st)

/-- State produced by a successful load, for stating theorems. -/
def loadSuccessState (st : StoreState) (df : DataFrame) (hashFn : DataFrame → String)
    (now : String) (metaFails : Bool) (dataset_name : String) : StoreState :=
  record_metadata
    { st with
      rawFiles := upsert dataset_name df st.rawFiles
      tables := upsert "raw_transactions" df st.tables }
    ⟨now, dataset_name, hashFn df, df.rows.length, df.columns.length,
      rawOutputPath dataset_name⟩
    metaFails

/-- Characterisation of the successful run of `load_raw_data`. -/
theorem load_raw_data_ok {fs hashFn now metaFails csv_path dataset_name st df}
    (hfs : lookupKey csv_path fs = some df) (hne : df.rows ≠ [])
    (hcols : missingCols df = []) :
    load_raw_data fs hashFn now metaFails csv_path dataset_name st
      = (Except.ok df, loadSuccessState st df hashFn now metaFails dataset_name) := by
  simp [load_raw_data, hfs, List.isEmpty_iff, hne, hcols, loadSuccessState]

/-- Inversion: a successful run determines the input file and state. -/
theorem load_raw_data_ok_inv {fs hashFn now metaFails csv_path dataset_name st df st2}
    (h : load_raw_data fs hashFn now metaFails csv_path dataset_name st
      = (Except.ok df, st2)) :
    lookupKey csv_path fs = some df ∧ df.rows ≠ [] ∧ missingCols df = [] ∧
      st2 = loadSuccessState st df hashFn now metaFails dataset_name := by
  unfold load_raw_data at h
  cases hfs : lookupKey csv_path fs with
  | none => simp [hfs] at h
  | some d =>
    rw [hfs] at h
    by_cases hne : d.rows.isEmpty
    · simp [hne] at h
    · by_cases hcols : (missingCols d).isEmpty
      · simp [hne, hcols] at h
        obtain ⟨hdf, hst⟩ := h
        subst hdf
        refine ⟨rfl, ?_, ?_, ?_⟩
        · simpa [List.isEmpty_iff] using hne
        · simpa [List.isEmpty_iff] using hcols
        · simp [loadSuccessState, ← hst]
      · simp [hne, hcols] at h

/-- Looking up a key just stored finds the new value. -/
theorem lookupKey_upsert (k : String) (v : DataFrame)
    (l : List (String × DataFrame)) : lookupKey k (upsert k v l) = some v := by
  induction l with
  | nil => simp [upsert, lookupKey]
  | cons hd tl ih =>
    by_cases hk : hd.1 = k
    · simp [upsert, hk, lookupKey]
    · simp [upsert, hk, lookupKey, ih]

/-!
Claim theorems: ingestion.
-/

/-- C7: loading a path that references no existing file fails with the
NotFound-kind error (`FileNotFoundError`), and the store state — raw
files, tables and metadata registry alike — is exactly the input state:
the existence check precedes every read and write. -/
theorem c7_load_missing_file_notfound_no_writes
    (fs : List (String × DataFrame)) (hashFn : DataFrame → String)
    (now : String) (metaFails : Bool) (csv_path dataset_name : String)
    (st : StoreState) (habsent : lookupKey csv_path fs = none) :
    load_raw_data fs hashFn now metaFails csv_path dataset_name st
      = (Except.error (LoadError.fileNotFound csv_path), st) := by
  simp [load_raw_data, habsent]

/-- C7 witness: concrete run against an empty filesystem. -/
theorem c7_witness :
    load_raw_data [] (fun _ => "h") "t0" false "missing.csv" "creditcard"
        ⟨[], [], []⟩
      = (Except.error (LoadError.fileNotFound "missing.csv"), ⟨[], [], []⟩) :=
  c7_load_missing_file_notfound_no_writes [] (fun _ => "h") "t0" false
    "missing.csv" "creditcard" ⟨[], [], []⟩ rfl

/-- C3: loading an existing, non-empty file whose columns lack
`Amount` fails with the Validation-kind error listing the missing
columns, and performs no writes: raw files, tables and the metadata
registry are all unchanged (the returned state is the input state). -/
theorem c3_load_missing_amount_validation_no_writes
    (fs : List (String × DataFrame)) (hashFn : DataFrame → String)
    (now : String) (metaFails : Bool) (csv_path dataset_name : String)
    (st : StoreState) (df : DataFrame) (hfs : lookupKey csv_path fs = some df)
    (hne : df.rows ≠ []) (hamount : "Amount" ∉ df.columns) :
    load_raw_data fs hashFn now metaFails csv_path dataset_name st
      = (Except.error (LoadError.missingColumns (missingCols df)), st) ∧
    "Amount" ∈ missingCols df := by
  have hmem : "Amount" ∈ missingCols df := by
    simp [missingCols, expected_cols, hamount]
  have hcols : ¬ (missingCols df).isEmpty := by
    simp [List.isEmpty_iff]
    exact fun h => by simp [h] at hmem
  refine ⟨?_, hmem⟩
  simp [load_raw_data, hfs, List.isEmpty_iff, hne, hcols]

/-- C3 witness: a one-row file with a lowercase `amount` header. -/
theorem c3_witness :
    load_raw_data [("f.csv", ⟨["Time", "amount", "Class"], [[0, 1, 0]]⟩)]
        (fun _ => "h") "t0" false "f.csv" "creditcard" ⟨[], [], []⟩
      = (Except.error (LoadError.missingColumns ["Amount"]), ⟨[], [], []⟩) ∧
    "Amount" ∈ missingCols ⟨["Time", "amount", "Class"], [[0, 1, 0]]⟩ :=
  c3_load_missing_amount_validation_no_writes
    [("f.csv", ⟨["Time", "amount", "Class"], [[0, 1, 0]]⟩)]
    (fun _ => "h") "t0" false "f.csv" "creditcard" ⟨[], [], []⟩
    ⟨["Time", "amount", "Class"], [[0, 1, 0]]⟩ (by decide) (by decide) (by decide)

/-- C10: the required-column check matches exactly the case-sensitive
names Time, Amount, Class.  If all three are present the load succeeds
regardless of any other columns; if any one is absent the load fails
with the Validation-kind error whose payload lists exactly the expected
names that are absent (so a case variant such as a lowercase amount
does not satisfy the check, and the absent name is listed). -/
theorem c10_required_column_check_exact
    (fs : List (String × DataFrame)) (hashFn : DataFrame → String)
    (now : String) (metaFails : Bool) (csv_path dataset_name : String)
    (st : StoreState) (df : DataFrame) (hfs : lookupKey csv_path fs = some df)
    (hne : df.rows ≠ []) :
    (("Time" ∈ df.columns ∧ "Amount" ∈ df.columns ∧ "Class" ∈ df.columns) →
      (load_raw_data fs hashFn now metaFails csv_path dataset_name st).1
        = Except.ok df) ∧
    (∀ c ∈ expected_cols, c ∉ df.columns →
      (load_raw_data fs hashFn now metaFails csv_path dataset_name st).1
        = Except.error (LoadError.missingColumns (missingCols df))) ∧
    (∀ c, c ∈ missingCols df ↔ (c ∈ expected_cols ∧ c ∉ df.columns)) := by
  refine ⟨?_, ?_, ?_⟩
  · intro ⟨ht, ha, hc⟩
    have hcols : missingCols df = [] := by
      simp [missingCols, expected_cols, List.filter_eq_nil_iff]
      refine ⟨ht, ha, hc⟩
    rw [load_raw_data_ok hfs hne hcols]
  · intro c hc habs
    have hmem : c ∈ missingCols df := by
      simp [missingCols, List.mem_filter, hc, habs]
    have hcols : ¬ (missingCols df).isEmpty := by
      simp [List.isEmpty_iff]
      exact fun h => by simp [h] at hmem
    simp [load_raw_data, hfs, List.isEmpty_iff, hne, hcols]
  · intro c
    simp [missingCols, List.mem_filter]

/-- C10 witness: a table with extra columns and all three names passes;
one with a lowercase amount fails listing Amount. -/
theorem c10_witness :
    (load_raw_data [("g.csv", ⟨["V1", "Time", "Amount", "Class"], [[5, 0, 1, 0]]⟩)]
        (fun _ => "h") "t0" false "g.csv" "creditcard" ⟨[], [], []⟩).1
      = Except.ok ⟨["V1", "Time", "Amount", "Class"], [[5, 0, 1, 0]]⟩ :=
  (c10_required_column_check_exact
    [("g.csv", ⟨["V1", "Time", "Amount", "Class"], [[5, 0, 1, 0]]⟩)]
    (fun _ => "h") "t0" false "g.csv" "creditcard" ⟨[], [], []⟩
    ⟨["V1", "Time", "Amount", "Class"], [[5, 0, 1, 0]]⟩ (by decide)
    (by decide)).1 (by decide)

/-- C4: two successful loads under the same dataset name: afterwards
the `raw_transactions` table holds exactly the second file's content
(full replacement, no append or merge), and the registry grew by one
entry per load — two in total. -/
theorem c4_second_load_replaces_table_two_registry_entries
    (fs1 fs2 : List (String × DataFrame)) (hf1 hf2 : DataFrame → String)
    (t1 t2 : String) (p1 p2 dataset_name : String) (st st1 st2 : StoreState)
    (df1 df2 : DataFrame)
    (h1 : load_raw_data fs1 hf1 t1 false p1 dataset_name st = (Except.ok df1, st1))
    (h2 : load_raw_data fs2 hf2 t2 false p2 dataset_name st1 = (Except.ok df2, st2)) :
    lookupKey "raw_transactions" st2.tables = some df2 ∧
    st2.registry.length = st.registry.length + 2 := by
  obtain ⟨-, -, -, hst1⟩ := load_raw_data_ok_inv h1
  obtain ⟨-, -, -, hst2⟩ := load_raw_data_ok_inv h2
  subst hst1 hst2
  constructor
  · simp [loadSuccessState, record_metadata, lookupKey_upsert]
  · simp [loadSuccessState, record_metadata]

/-- C4 witness: two concrete loads of different files under one name. -/
theorem c4_witness :
    lookupKey "raw_transactions"
        (load_raw_data [("b.csv", ⟨["Time", "Amount", "Class"], [[1, 7, 1]]⟩)]
          (fun _ => "h2") "t1" false "b.csv" "creditcard"
          (load_raw_data [("a.csv", ⟨["Time", "Amount", "Class"], [[0, 3, 0]]⟩)]
            (fun _ => "h1") "t0" false "a.csv" "creditcard" ⟨[], [], []⟩).2).2.tables
      = some ⟨["Time", "Amount", "Class"], [[1, 7, 1]]⟩ ∧
    (load_raw_data [("b.csv", ⟨["Time", "Amount", "Class"], [[1, 7, 1]]⟩)]
          (fun _ => "h2") "t1" false "b.csv" "creditcard"
          (load_raw_data [("a.csv", ⟨["Time", "Amount", "Class"], [[0, 3, 0]]⟩)]
            (fun _ => "h1") "t0" false "a.csv" "creditcard" ⟨[], [], []⟩).2).2.registry.length
      = ([] : List MetaEntry).length + 2 :=
  c4_second_load_replaces_table_two_registry_entries
    [("a.csv", ⟨["Time", "Amount", "Class"], [[0, 3, 0]]⟩)]
    [("b.csv", ⟨["Time", "Amount", "Class"], [[1, 7, 1]]⟩)]
    (fun _ => "h1") (fun _ => "h2") "t0" "t1" "a.csv" "b.csv" "creditcard"
    ⟨[], [], []⟩
    (load_raw_data [("a.csv", ⟨["Time", "Amount", "Class"], [[0, 3, 0]]⟩)]
      (fun _ => "h1") "t0" false "a.csv" "creditcard" ⟨[], [], []⟩).2
    (load_raw_data [("b.csv", ⟨["Time", "Amount", "Class"], [[1, 7, 1]]⟩)]
      (fun _ => "h2") "t1" false "b.csv" "creditcard"
      (load_raw_data [("a.csv", ⟨["Time", "Amount", "Class"], [[0, 3, 0]]⟩)]
        (fun _ => "h1") "t0" false "a.csv" "creditcard" ⟨[], [], []⟩).2).2
    ⟨["Time", "Amount", "Class"], [[0, 3, 0]]⟩
    ⟨["Time", "Amount", "Class"], [[1, 7, 1]]⟩ (by decide) (by decide)

/-- C5: when the metadata-registry append fails, a load of a valid file
still returns the dataframe successfully — the failure is swallowed
inside the metadata step and never propagated — and only the registry
is left untouched; the raw copy and the table replacement stand. -/
theorem c5_metadata_failure_swallowed
    (fs : List (String × DataFrame)) (hashFn : DataFrame → String)
    (now : String) (csv_path dataset_name : String) (st : StoreState)
    (df : DataFrame) (hfs : lookupKey csv_path fs = some df)
    (hne : df.rows ≠ []) (hcols : missingCols df = []) :
    (load_raw_data fs hashFn now true csv_path dataset_name st).1 = Except.ok df ∧
    (load_raw_data fs hashFn now true csv_path dataset_name st).2.registry
      = st.registry ∧
    lookupKey "raw_transactions"
      (load_raw_data fs hashFn now true csv_path dataset_name st).2.tables
      = some df := by
  rw [load_raw_data_ok hfs hne hcols]
  simp [loadSuccessState, record_metadata, lookupKey_upsert]

/-- C5 witness: concrete load with a failing registry append. -/
theorem c5_witness :
    (load_raw_data [("a.csv", ⟨["Time", "Amount", "Class"], [[0, 3, 0]]⟩)]
        (fun _ => "h1") "t0" true "a.csv" "creditcard" ⟨[], [], []⟩).1
      = Except.ok ⟨["Time", "Amount", "Class"], [[0, 3, 0]]⟩ ∧
    (load_raw_data [("a.csv", ⟨["Time", "Amount", "Class"], [[0, 3, 0]]⟩)]
        (fun _ => "h1") "t0" true "a.csv" "creditcard" ⟨[], [], []⟩).2.registry
      = ([] : List MetaEntry) ∧
    lookupKey "raw_transactions"
      (load_raw_data [("a.csv", ⟨["Time", "Amount", "Class"], [[0, 3, 0]]⟩)]
        (fun _ => "h1") "t0" true "a.csv" "creditcard" ⟨[], [], []⟩).2.tables
      = some ⟨["Time", "Amount", "Class"], [[0, 3, 0]]⟩ :=
  c5_metadata_failure_swallowed
    [("a.csv", ⟨["Time", "Amount", "Class"], [[0, 3, 0]]⟩)]
    (fun _ => "h1") "t0" "a.csv" "creditcard" ⟨[], [], []⟩
    ⟨["Time", "Amount", "Class"], [[0, 3, 0]]⟩ (by decide) (by decide) (by decide)


/-!
Claim theorems: queries.
-/

/-- The LIMIT clause only ever drops rows from the end. -/
theorem applyLimit_sublist (limit : Option Int) (xs : List Tx) :
    List.Sublist (applyLimit limit xs) xs := by
  match limit with
  | none => exact List.Sublist.refl xs
  | some l =>
    simp only [applyLimit]
    split
    · exact List.Sublist.refl xs
    · simp only [sqliteLimit]
      split
      · exact List.Sublist.refl xs
      · exact List.take_sublist _ _

/-- On a table whose classes are all 0 or 1, the two SUM(CASE)
aggregates partition the row count. -/
theorem countP_class_partition (rows : List Tx)
    (h : ∀ r ∈ rows, r.cls = 0 ∨ r.cls = 1) :
    rows.countP (fun r => r.cls == 1) + rows.countP (fun r => r.cls == 0)
      = rows.length := by
  induction rows with
  | nil => simp
  | cons hd tl ih =>
    have hhd := h hd (by simp)
    have htl := ih (fun r hr => h r (by simp [hr]))
    rcases hhd with h0 | h1
    · simp [List.countP_cons, h0, ← htl]
      omega
    · simp [List.countP_cons, h1, ← htl]
      omega

/-- C1 (code bug): on the empty table (`total = 0`) the code does not
return `fraud_rate = 0`: SQL SUM over zero rows is NULL and the
`int(...)` conversion of the fraud cell raises before the
`if total > 0` guard is ever reached — the guard's `else 0` branch is
dead code.  On a non-empty table with zero fraud rows the intended
values `fraud = 0`, `fraud_rate = 0` are indeed returned. -/
theorem c1_empty_table_raises_instead_of_zero_rate :
    get_transaction_count ([] : List Tx) = Except.error PyError.nullToInt ∧
    get_transaction_count [⟨0, 25, 0⟩] = Except.ok ⟨1, 0, 1, 0⟩ := by
  constructor
  · decide
  · norm_num [get_transaction_count, sqlSumCase, intOfCell, round3,
      List.countP_cons, List.countP_nil]

/-- C9 counterexample: the empty table has every class value in {0, 1}
vacuously, yet `get_transaction_count` raises instead of returning a
result. -/
theorem c9_counterexample_empty_table :
    get_transaction_count ([] : List Tx) = Except.error PyError.nullToInt := by
  decide

/-- C9 (amended): on every NON-empty table whose classes are all 0 or
1, `get_transaction_count` returns a result with `total` the row count,
`fraud` the number of class-1 rows, `legitimate` the number of class-0
rows, and `total = fraud + legitimate`. -/
theorem c9_counts_partition_on_nonempty (rows : List Tx) (hne : rows ≠ [])
    (hcls : ∀ r ∈ rows, r.cls = 0 ∨ r.cls = 1) :
    ∃ c, get_transaction_count rows = Except.ok c ∧
      c.total = c.fraud + c.legitimate ∧
      c.total = rows.length ∧
      c.fraud = rows.countP (fun r => r.cls == 1) ∧
      c.legitimate = rows.countP (fun r => r.cls == 0) := by
  have hemp : ¬ rows.isEmpty := by simp [List.isEmpty_iff, hne]
  refine ⟨⟨rows.length, rows.countP (fun r => r.cls == 1),
    rows.countP (fun r => r.cls == 0), ?_⟩, ?_, ?_, rfl, rfl, rfl⟩
  · exact round3 (if (rows.length : Int) > 0
      then ((rows.countP (fun r => r.cls == 1) : Int) : Rat) / ((rows.length : Int) : Rat) * 100
      else 0)
  · simp [get_transaction_count, sqlSumCase, hemp, intOfCell]
  · have := countP_class_partition rows hcls
    simp
    omega

/-- C9 witness: a concrete two-row table. -/
theorem c9_witness :
    ∃ c, get_transaction_count [⟨0, 25, 0⟩, ⟨1, 30, 1⟩] = Except.ok c ∧
      c.total = c.fraud + c.legitimate ∧
      c.total = ([⟨0, 25, 0⟩, ⟨1, 30, 1⟩] : List Tx).length ∧
      c.fraud = ([⟨0, 25, 0⟩, ⟨1, 30, 1⟩] : List Tx).countP (fun r => r.cls == 1) ∧
      c.legitimate = ([⟨0, 25, 0⟩, ⟨1, 30, 1⟩] : List Tx).countP (fun r => r.cls == 0) :=
  c9_counts_partition_on_nonempty [⟨0, 25, 0⟩, ⟨1, 30, 1⟩] (by decide) (by decide)

/-- C2 counterexample: a provided limit of 0 is NOT applied as a row
cap.  Python's `if limit:` treats 0 as falsy, so no LIMIT clause is
appended and the one fraud row comes back, not at most zero rows. -/
theorem c2_counterexample_limit_zero :
    ¬ (get_fraud_transactions [⟨0, 5, 1⟩] (some 0)).length ≤ 0 := by
  decide

/-- C2 (amended): a provided POSITIVE limit is applied as a row cap on
each of the three helpers; an omitted limit returns the full result
set; a zero limit (falsy in Python) or a negative limit (which SQLite
reads as no limit) also returns the full result set. -/
theorem c2_limit_cap_positive_full_otherwise (rows : List Tx) (l : Int)
    (amount_threshold : Rat) :
    (0 < l →
      (get_fraud_transactions rows (some l)).length ≤ l.toNat ∧
      (get_legitimate_transactions rows (some l)).length ≤ l.toNat ∧
      (get_high_value_transactions rows amount_threshold (some l)).length ≤ l.toNat) ∧
    (get_fraud_transactions rows none = rows.filter (fun r => r.cls == 1) ∧
      get_legitimate_transactions rows none = rows.filter (fun r => r.cls == 0) ∧
      get_high_value_transactions rows amount_threshold none
        = List.insertionSort geAmount
            (rows.filter (fun r => amount_threshold ≤ r.amount))) ∧
    (l ≤ 0 →
      get_fraud_transactions rows (some l) = get_fraud_transactions rows none ∧
      get_legitimate_transactions rows (some l)
        = get_legitimate_transactions rows none ∧
      get_high_value_transactions rows amount_threshold (some l)
        = get_high_value_transactions rows amount_threshold none) := by
  have hcap : ∀ xs : List Tx, 0 < l → (applyLimit (some l) xs).length ≤ l.toNat := by
    intro xs hl
    have hne : l ≠ 0 := by omega
    have hnneg : ¬ l < 0 := by omega
    simp [applyLimit, hne, sqliteLimit, hnneg, List.length_take]
  have hfull : ∀ xs : List Tx, l ≤ 0 → applyLimit (some l) xs = xs := by
    intro xs hl
    by_cases h0 : l = 0
    · simp [applyLimit, h0]
    · have : l < 0 := by omega
      simp [applyLimit, h0, sqliteLimit, this]
  refine ⟨fun hl => ⟨hcap _ hl, hcap _ hl, hcap _ hl⟩, ⟨rfl, rfl, rfl⟩,
    fun hl => ⟨?_, ?_, ?_⟩⟩
  · exact hfull _ hl
  · exact hfull _ hl
  · exact hfull _ hl

/-- C2 witness: cap of 2 on a one-row result. -/
theorem c2_witness :
    (get_fraud_transactions [⟨0, 5, 1⟩] (some 2)).length ≤ (2 : Int).toNat ∧
    (get_legitimate_transactions [⟨0, 5, 1⟩] (some 2)).length ≤ (2 : Int).toNat ∧
    (get_high_value_transactions [⟨0, 5, 1⟩] 1000 (some 2)).length ≤ (2 : Int).toNat :=
  (c2_limit_cap_positive_full_otherwise [⟨0, 5, 1⟩] 2 1000).1 (by decide)

/-- C6: with threshold 1000, every returned row has amount at least
1000 and the result is sorted by amount descending, for any limit; with
limit 3 at most 3 rows come back, and they are the top of the
descending order: the result is the 3-row cut of the full result, and
every row it leaves out has amount no larger than every row it keeps. -/
theorem c6_high_value_threshold_sort_limit (rows : List Tx) :
    (∀ limit, ∀ r ∈ get_high_value_transactions rows 1000 limit,
      (1000 : Rat) ≤ r.amount) ∧
    (∀ limit, List.Sorted geAmount (get_high_value_transactions rows 1000 limit)) ∧
    (get_high_value_transactions rows 1000 (some 3)).length ≤ 3 ∧
    get_high_value_transactions rows 1000 (some 3)
      = (get_high_value_transactions rows 1000 none).take 3 ∧
    (∀ x ∈ get_high_value_transactions rows 1000 (some 3),
      ∀ y ∈ (get_high_value_transactions rows 1000 none).drop 3,
        y.amount ≤ x.amount) := by
  have hmem : ∀ limit, ∀ r ∈ get_high_value_transactions rows 1000 limit,
      (1000 : Rat) ≤ r.amount := by
    intro limit r hr
    have h1 : r ∈ List.insertionSort geAmount
        (rows.filter (fun r => decide ((1000 : Rat) ≤ r.amount))) :=
      (applyLimit_sublist limit _).subset hr
    have h2 : r ∈ rows.filter (fun r => decide ((1000 : Rat) ≤ r.amount)) := by
      simpa [List.mem_insertionSort] using h1
    simpa using (List.mem_filter.mp h2).2
  have hsorted : ∀ limit,
      List.Sorted geAmount (get_high_value_transactions rows 1000 limit) := by
    intro limit
    exact (List.sorted_insertionSort geAmount _).sublist (applyLimit_sublist limit _)
  have htake : get_high_value_transactions rows 1000 (some 3)
      = (get_high_value_transactions rows 1000 none).take 3 := by
    simp [get_high_value_transactions, applyLimit, sqliteLimit]
  refine ⟨hmem, hsorted, ?_, htake, ?_⟩
  · rw [htake]
    simp [List.length_take]
  · intro x hx y hy
    have hfull : List.Sorted geAmount (get_high_value_transactions rows 1000 none) :=
      hsorted none
    rw [← List.take_append_drop 3 (get_high_value_transactions rows 1000 none)]
      at hfull
    have hcross := (List.pairwise_append.mp hfull).2.2
    rw [htake] at hx
    exact hcross x hx y hy

/-- C6 witness: concrete table; the 2500 row is returned and its amount
clears the threshold. -/
theorem c6_witness : (1000 : Rat) ≤ (Tx.mk 2 2500 1).amount :=
  (c6_high_value_threshold_sort_limit [⟨0, 500, 0⟩, ⟨2, 2500, 1⟩]).1 none
    ⟨2, 2500, 1⟩ (by decide)
